import Mathlib

/-!
# Verification of the zenith query orchestrator and experience log

Shallow embedding of the core of `tmintner/prismic-zenith`:

* the `rl` package (`src/unnamed/part_007`): the Experience row type, the
  SQLite-backed experience log (`InitDB`, `LogExperience`, `UpdateFeedback`),
  modelled as a pure state (`RLDB`) with an explicit next-id counter and clock
  standing for SQLite's `AUTOINCREMENT` id and `CURRENT_TIMESTAMP`;
* the HTTP handlers of `src/cmd/zenith-server/main.go`: `handleQuery` (the
  3-attempt generate/execute/explain retry loop), `handleRecommend` and
  `handleFeedback`, with the two external collaborators (LLM provider and
  telemetry store) as oracles supplied per run.

External calls are modelled by oracle functions indexed by the attempt number
(the same query may succeed on one attempt and fail on the next), and the
fallibility of each `LogExperience` write (whose error the Go code always
discards) by a `logOk` oracle indexed by the number of log calls made so far
in the run.
-/

namespace Zenith

/-- Go `unicode.IsSpace` restricted to the Latin-1 range (the Go function
additionally accepts some higher Unicode space code points, irrelevant
here). -/
def goIsSpace (c : Char) : Bool :=
  c == ' ' || c == '\t' || c == '\n' || c == '\x0b' || c == '\x0c' || c == '\r' ||
  c == '\x85' || c == '\xa0'

/-- Go `strings.HasPrefix s pre`. -/
def goHasPre (s pre : String) : Bool :=
  s.toList.take pre.toList.length == pre.toList

/-- Go `strings.TrimPrefix`: drop `pre` from the front of `s` when `s` starts
with it, otherwise return `s` unchanged. -/
def goTrimPre (s pre : String) : String :=
  if goHasPre s pre then String.mk (s.toList.drop pre.toList.length) else s

/-- Go `strings.TrimSpace` (leading and trailing whitespace removed). -/
def goTrimSpace (s : String) : String :=
  String.mk (((s.toList.dropWhile goIsSpace).reverse.dropWhile goIsSpace).reverse)

/-- Go `strings.ToLower` (ASCII-faithful). -/
def goToLower (s : String) : String :=
  String.mk (s.toList.map Char.toLower)

/-- One row of the `experiences` table (`rl.Experience`,
`src/unnamed/part_007`).  `timestamp` models the store-assigned
`CURRENT_TIMESTAMP`; `userFeedback` defaults to 0. -/
structure Experience where
  id : Int
  timestamp : Nat
  source : String
  prompt : String
  generatedQuery : String
  executionResult : String
  userFeedback : Int
  deriving Repr, DecidableEq

/-- The experience-log store (`rl.DB`): the table rows plus the
`AUTOINCREMENT` counter (next id to assign, ids start at 1) and a clock
supplying timestamps. -/
structure RLDB where
  rows : List Experience
  nextId : Int
  clock : Nat
  deriving Repr, DecidableEq

/-- `rl.InitDB` on a fresh path: empty table, ids start at 1. -/
def initDB : RLDB := { rows := [], nextId := 1, clock := 0 }

/-- `rl.DB.LogExperience`: insert a row with `user_feedback = 0` and a
store-assigned id and timestamp, returning the new id.  `ok` is whether the
underlying write succeeds; on failure the Go function returns id 0 with an
error and no row is inserted. -/
def logExperience (ok : Bool) (db : RLDB) (source prompt generatedQuery executionResult : String) :
    Int × RLDB :=
  if ok then
    let row : Experience :=
      { id := db.nextId, timestamp := db.clock, source := source, prompt := prompt,
        generatedQuery := generatedQuery, executionResult := executionResult,
        userFeedback := 0 }
    (db.nextId, { rows := db.rows ++ [row], nextId := db.nextId + 1, clock := db.clock + 1 })
  else
    (0, db)

/-- `rl.DB.UpdateFeedback`: `UPDATE experiences SET user_feedback = ? WHERE
id = ?`; when no row matched (`rowsAffected == 0`) it returns the error
`"experience ID %d not found"`. -/
def updateFeedback (db : RLDB) (id : Int) (feedback : Int) : Except String RLDB :=
  let rowsAffected := db.rows.countP (fun r => r.id == id)
  if rowsAffected == 0 then
    Except.error ("experience ID " ++ toString id ++ " not found")
  else
    Except.ok { db with
      rows := db.rows.map (fun r => if r.id == id then { r with userFeedback := feedback } else r) }

/-- Look a row up by id (a `SELECT ... WHERE id = ?` read). -/
def getRow (db : RLDB) (id : Int) : Option Experience :=
  db.rows.find? (fun r => r.id == id)

/-- Well-formedness maintained by the store: every assigned id is positive and
below the `AUTOINCREMENT` counter. -/
def RLDB.wf (db : RLDB) : Prop :=
  ∀ r ∈ db.rows, 1 ≤ r.id ∧ r.id < db.nextId

/-- `FeedbackRequest` (`src/cmd/zenith-server/main.go`): the decoded JSON body
of a `/feedback` request.  `feedback` is a plain integer field. -/
structure FeedbackRequest where
  interactionID : Int
  feedback : Int
  deriving Repr, DecidableEq

/-- An HTTP response: status code and body text. -/
structure HttpReply where
  status : Nat
  body : String
  deriving Repr, DecidableEq

/-- `handleFeedback` after method and body decoding succeeded: call
`UpdateFeedback`; on error reply 500 with the wrapped message, otherwise reply
200 with the ok marker. -/
def handleFeedback (db : RLDB) (req : FeedbackRequest) : HttpReply × RLDB :=
  match updateFeedback db req.interactionID req.feedback with
  | Except.error e => ({ status := 500, body := "Failed to update feedback: " ++ e }, db)
  | Except.ok db2 => ({ status := 200, body := "\x7b\"status\": \"ok\"\x7d" }, db2)

/-- The `--feedback` path of the CLI (`src/cmd/zenith-cli/main.go`): requires
`--id` to be nonzero, maps `good` to 1 and `bad` to -1 (case-insensitively)
and rejects every other literal; returns the integer sent to the server. -/
def cliFeedbackValue (id : Int) (feedback : String) : Option Int :=
  if id == 0 then none
  else if goToLower feedback == "good" then some 1
  else if goToLower feedback == "bad" then some (-1)
  else none

/-- `QueryResponse` (`src/cmd/zenith-server/main.go`): `interaction_id` is
tagged `omitempty`, so it is omitted from the JSON exactly when it is 0;
`answer` is always present; `error` is tagged `omitempty`. -/
structure QueryResponse where
  interactionID : Int
  answer : String
  error : String
  deriving Repr, DecidableEq

/-- Go `encoding/json` with the `omitempty` tag on `interaction_id`: the
field is omitted from the serialized response exactly when it equals the
zero value 0. -/
def jsonOmitsInteractionID (resp : QueryResponse) : Bool :=
  resp.interactionID == 0

/-- `respondError`: reply with the message in `error`, the given interaction
id, and a zero-valued (empty) `answer`. -/
def respondError (msg : String) (id : Int) : QueryResponse :=
  { interactionID := id, answer := "", error := msg }

/-- The per-run oracles for `handleQuery`: the LLM provider's `GenerateSQL`
and `ExplainResults`, the telemetry store's `QueryLogs`/`QueryMetrics`
(indexed by the attempt number, since the store's reply can change between
attempts), and `logOk`, whether the n-th `LogExperience` write of the run
succeeds. -/
structure Env where
  gen : Nat → Except String String
  queryLogs : Nat → String → Except String String
  queryMetrics : Nat → String → Except String String
  explain : String → String → String → Except String String
  logOk : Nat → Bool

/-- Handler-side state: the experience-log store, the count of
`LogExperience` calls made so far in this run, and the trace of rows this run
actually wrote (an observer: always a suffix of `db.rows`). -/
structure HState where
  db : RLDB
  calls : Nat
  trace : List Experience
  deriving Repr, DecidableEq

/-- One `rlDB.LogExperience(...)` call site inside a handler: consult `logOk`
at the current call index, thread the store, record the written row in the
trace. -/
def hlog (logOkF : Nat → Bool) (s : HState) (source prompt generatedQuery executionResult : String) :
    Int × HState :=
  let ok := logOkF s.calls
  let row : Experience :=
    { id := s.db.nextId, timestamp := s.db.clock, source := source, prompt := prompt,
      generatedQuery := generatedQuery, executionResult := executionResult, userFeedback := 0 }
  let (id, db2) := logExperience ok s.db source prompt generatedQuery executionResult
  (id, { db := db2, calls := s.calls + 1,
         trace := if ok then s.trace ++ [row] else s.trace })

/-- `maxRetries` in `handleQuery`. -/
def maxRetries : Nat := 3

/-- The prefix dispatch inside the retry loop: a generated text starting with
`LOG:` goes to `QueryLogs` with the prefix dropped and whitespace trimmed;
everything else goes to `QueryMetrics` with a leading `METRIC:` dropped (when
present) and whitespace trimmed. `true` in the first component means the
log-query path. -/
def routeQuery (sqlQuery : String) : Bool × String :=
  if goHasPre sqlQuery "LOG:" then
    (true, goTrimSpace (goTrimPre sqlQuery "LOG:"))
  else
    (false, goTrimSpace (goTrimPre sqlQuery "METRIC:"))

/-- Execute one generated query at a given attempt: dispatch per `routeQuery`
and call the corresponding store oracle. -/
def execRoute (env : Env) (attempt : Nat) (sqlQuery : String) : Except String String :=
  match routeQuery sqlQuery with
  | (true, q) => env.queryLogs attempt q
  | (false, q) => env.queryMetrics attempt q

/-- Outcome of the retry loop: an early error response, or the successfully
executed query text and its results. -/
inductive LoopRes where
  | fail (resp : QueryResponse)
  | ok (sqlQuery results : String)
  deriving Repr, DecidableEq

/-- The `for attempt := 1; attempt <= maxRetries; attempt++` loop of
`handleQuery`.  `fuel` is `maxRetries - attempt + 1`, so `fuel = 1` means the
current attempt is the last; `fuel = 0` (loop exhausted without break, which
cannot happen for `maxRetries ≥ 1`) yields the zero values of the Go
variables `sqlQuery`/`results`. -/
def runLoop (env : Env) (userQuery : String) : Nat → Nat → HState → LoopRes × HState
  | _, 0, s => (LoopRes.ok "" "", s)
  | attempt, fuel + 1, s =>
    match env.gen attempt with
    | Except.error e =>
      if fuel == 0 then
        let (id, s1) := hlog env.logOk s "query" userQuery "" ("Failed to generate SQL: " ++ e)
        (LoopRes.fail (respondError
          ("Failed to generate MetricsQL after " ++ toString maxRetries ++ " attempts: " ++ e) id), s1)
      else
        runLoop env userQuery (attempt + 1) fuel s
    | Except.ok sqlQuery =>
      match execRoute env attempt sqlQuery with
      | Except.error e =>
        let (_, s1) := hlog env.logOk s "query" userQuery sqlQuery ("Execution Error: " ++ e)
        if fuel == 0 then
          let (id, s2) := hlog env.logOk s1 "query" userQuery sqlQuery ("Final Execution Error: " ++ e)
          (LoopRes.fail (respondError
            ("Failed to execute query after " ++ toString maxRetries ++ " attempts: " ++ e) id), s2)
        else
          runLoop env userQuery (attempt + 1) fuel s1
      | Except.ok results => (LoopRes.ok sqlQuery results, s)

/-- `handleQuery` after method and body decoding succeeded: run the retry
loop; on loop success ask `ExplainResults`, logging and responding per the
source. -/
def handleQuery (env : Env) (userQuery : String) (s : HState) : QueryResponse × HState :=
  match runLoop env userQuery 1 maxRetries s with
  | (LoopRes.fail resp, s1) => (resp, s1)
  | (LoopRes.ok sqlQuery results, s1) =>
    match env.explain userQuery sqlQuery results with
    | Except.error e =>
      let (id, s2) := hlog env.logOk s1 "query" userQuery sqlQuery ("Failed to explain results: " ++ e)
      (respondError ("Failed to explain results: " ++ e) id, s2)
    | Except.ok explanation =>
      let (id, s2) := hlog env.logOk s1 "query" userQuery sqlQuery "Success"
      ({ interactionID := id, answer := explanation, error := "" }, s2)

/-- Fresh handler state over a given store. -/
def initState (db : RLDB) : HState := { db := db, calls := 0, trace := [] }

/-- The per-run oracles for `handleRecommend`: the outcomes of its five fixed
telemetry-store calls, the provider's `GenerateRecommendations`, and the
`LogExperience` write oracle. -/
structure RecEnv where
  cpu : Except String String
  mem : Except String String
  topCPU : Except String String
  topMem : Except String String
  errLogs : Except String String
  recommend : String → Except String String
  logOk : Nat → Bool

/-- One `if err == nil` block of the `systemDataBuilder`: append the
formatted section on success, append nothing on error. -/
def recSection (front back : String) (res : Except String String) : String :=
  match res with
  | Except.ok s => front ++ s ++ back
  | Except.error _ => ""

/-- The `systemDataBuilder` contents of `handleRecommend`. -/
def buildSystemData (env : RecEnv) : String :=
  recSection "Global Avg CPU: " "\n" env.cpu ++
  recSection "Global Avg Memory Used (MB): " "\n" env.mem ++
  recSection "Top 5 Processes by CPU:\n" "\n" env.topCPU ++
  recSection "Top 5 Processes by Memory:\n" "\n" env.topMem ++
  recSection "Recent Error Logs:\n" "\n" env.errLogs

/-- `handleRecommend` after the method check: build the system summary, ask
`GenerateRecommendations`, log one `source="recommend"` Experience and
respond. -/
def handleRecommend (env : RecEnv) (s : HState) : QueryResponse × HState :=
  let systemData := buildSystemData env
  match env.recommend systemData with
  | Except.error e =>
    let (id, s1) := hlog env.logOk s "recommend" "Generate system recommendations" ""
      ("Failed to generate recommendations: " ++ e)
    (respondError ("Failed to generate recommendations: " ++ e) id, s1)
  | Except.ok recommendations =>
    let (id, s1) := hlog env.logOk s "recommend" "Generate system recommendations" "" "Success"
    ({ interactionID := id, answer := recommendations, error := "" }, s1)

/-- Concrete run environment: generation always fails with `timeout`
(end-to-end scenario 2 of the spec); the store and explainer are never
reached; every log write succeeds. -/
def genFailEnv : Env :=
  { gen := fun _ => Except.error "timeout",
    queryLogs := fun _ _ => Except.error "down",
    queryMetrics := fun _ _ => Except.error "down",
    explain := fun _ _ _ => Except.error "down",
    logOk := fun _ => true }

/-- Concrete run environment: generation always yields `METRIC: up`, the
store always rejects with `syntax error`; every log write succeeds. -/
def execFailEnv : Env :=
  { gen := fun _ => Except.ok "METRIC: up",
    queryLogs := fun _ _ => Except.error "syntax error",
    queryMetrics := fun _ _ => Except.error "syntax error",
    explain := fun _ _ _ => Except.ok "explained",
    logOk := fun _ => true }

/-- Concrete run environment: everything succeeds on the first attempt
(end-to-end scenario 1 of the spec). -/
def okEnv : Env :=
  { gen := fun _ => Except.ok "METRIC: avg(cpu_usage_pct)",
    queryLogs := fun _ _ => Except.ok "logs",
    queryMetrics := fun _ _ => Except.ok "Metric: \x7b\x7d Value: [0, 12.5]",
    explain := fun _ _ _ => Except.ok "Average CPU is 12.5%.",
    logOk := fun _ => true }

/-- Relating the loop outcomes of two runs that differ only in logging
behavior: same branch, same user-visible message text / executed query, the
interaction ids free to differ. -/
def LoopRes.sameCtrl : LoopRes → LoopRes → Prop
  | LoopRes.fail r1, LoopRes.fail r2 => r1.answer = r2.answer ∧ r1.error = r2.error
  | LoopRes.ok a b, LoopRes.ok c d => a = c ∧ b = d
  | _, _ => False

/-! ## Helper lemmas -/

theorem updateFeedback_preserves_id (r : Experience) (id v : Int) :
    (if r.id == id then { r with userFeedback := v } else r).id = r.id := by
  split <;> rfl

theorem updateFeedback_ok_iff (db : RLDB) (id v : Int) :
    (∃ db2, updateFeedback db id v = Except.ok db2) ↔
      0 < db.rows.countP (fun r => r.id == id) := by
  constructor
  · rintro ⟨db2, h⟩
    rcases Nat.eq_zero_or_pos (db.rows.countP (fun r => r.id == id)) with hc | hc
    · rw [updateFeedback] at h
      simp [hc] at h
    · exact hc
  · intro h
    have hc : ((db.rows.countP (fun r => r.id == id) == 0) : Bool) = false := by
      simp only [beq_eq_false_iff_ne, ne_eq]
      omega
    rw [updateFeedback]
    simp only [hc, Bool.false_eq_true, if_false]
    exact ⟨_, rfl⟩

theorem countP_eq_zero_of_find?_none {l : List Experience} {id : Int}
    (h : l.find? (fun r => r.id == id) = none) :
    l.countP (fun r => r.id == id) = 0 := by
  rw [List.countP_eq_zero]
  intro r hr
  have := List.find?_eq_none.mp h r hr
  simpa using this

theorem updateFeedback_ok_eq (db : RLDB) (id v : Int)
    (h : 0 < db.rows.countP (fun r => r.id == id)) :
    updateFeedback db id v = Except.ok { db with rows := db.rows.map (fun r => if r.id == id then { r with userFeedback := v } else r) } := by
  have hc : ((db.rows.countP (fun r => r.id == id) == 0) : Bool) = false := by
    simp only [beq_eq_false_iff_ne, ne_eq]
    omega
  rw [updateFeedback]
  simp only [hc, Bool.false_eq_true, if_false]

theorem updateFeedback_err_eq (db : RLDB) (id v : Int)
    (h : db.rows.countP (fun r => r.id == id) = 0) :
    updateFeedback db id v = Except.error ("experience ID " ++ toString id ++ " not found") := by
  rw [updateFeedback]
  simp [h]

theorem hlog_true (lo : Nat → Bool) (s : HState) (source prompt gq res : String)
    (h : lo s.calls = true) :
    hlog lo s source prompt gq res =
      (s.db.nextId,
       { db := { rows := s.db.rows ++ [{ id := s.db.nextId, timestamp := s.db.clock, source := source, prompt := prompt, generatedQuery := gq, executionResult := res, userFeedback := 0 }], nextId := s.db.nextId + 1, clock := s.db.clock + 1 },
         calls := s.calls + 1,
         trace := s.trace ++ [{ id := s.db.nextId, timestamp := s.db.clock, source := source, prompt := prompt, generatedQuery := gq, executionResult := res, userFeedback := 0 }] }) := by
  rw [hlog]
  simp [h, logExperience]

theorem hlog_false (lo : Nat → Bool) (s : HState) (source prompt gq res : String)
    (h : lo s.calls = false) :
    hlog lo s source prompt gq res =
      (0, { db := s.db, calls := s.calls + 1, trace := s.trace }) := by
  rw [hlog]
  simp [h, logExperience]

theorem go_append_ne_empty (a b : String) (ha : a ≠ "") : a ++ b ≠ "" := by
  intro h
  apply ha
  have hd := congrArg String.data h
  rw [String.data_append] at hd
  exact String.ext (List.append_eq_nil.mp hd).1

theorem hlog_cases (lo : Nat → Bool) (s : HState) (source prompt gq res : String) :
    hlog lo s source prompt gq res = (0, { db := s.db, calls := s.calls + 1, trace := s.trace }) ∨
    hlog lo s source prompt gq res =
      (s.db.nextId,
       { db := { rows := s.db.rows ++ [{ id := s.db.nextId, timestamp := s.db.clock, source := source, prompt := prompt, generatedQuery := gq, executionResult := res, userFeedback := 0 }], nextId := s.db.nextId + 1, clock := s.db.clock + 1 },
         calls := s.calls + 1,
         trace := s.trace ++ [{ id := s.db.nextId, timestamp := s.db.clock, source := source, prompt := prompt, generatedQuery := gq, executionResult := res, userFeedback := 0 }] }) := by
  cases h : lo s.calls
  · exact Or.inl (hlog_false lo s source prompt gq res h)
  · exact Or.inr (hlog_true lo s source prompt gq res h)

theorem runLoop_ok_trace (env : Env) (q : String) :
    ∀ fuel attempt s sql res s1, runLoop env q attempt fuel s = (LoopRes.ok sql res, s1) →
      ∃ t, s1.trace = s.trace ++ t ∧
        ∀ r ∈ t, ∃ e, r.executionResult = "Execution Error: " ++ e := by
  intro fuel
  induction fuel with
  | zero =>
    intro attempt s sql res s1 h
    simp only [runLoop] at h
    rw [Prod.mk.injEq] at h
    obtain ⟨h1, h2⟩ := h
    subst h2
    exact ⟨[], by simp, by simp⟩
  | succ n ih =>
    intro attempt s sql res s1 h
    simp only [runLoop] at h
    rcases hg : env.gen attempt with e | sq
    · simp only [hg] at h
      by_cases hn : (n == 0) = true
      · simp only [hn, if_true] at h
        rcases hlog_cases env.logOk s "query" q "" ("Failed to generate SQL: " ++ e) with hl | hl <;>
          · rw [hl] at h
            rw [Prod.mk.injEq] at h
            exact absurd h.1 (by simp)
      · simp only [hn, Bool.false_eq_true, if_false] at h
        exact ih _ _ _ _ _ h
    · simp only [hg] at h
      rcases hx : execRoute env attempt sq with e | r
      · simp only [hx] at h
        rcases hlog_cases env.logOk s "query" q sq ("Execution Error: " ++ e) with hl | hl <;>
          rw [hl] at h <;> by_cases hn : (n == 0) = true
        · simp only [hn, if_true] at h
          rcases hlog_cases env.logOk { db := s.db, calls := s.calls + 1, trace := s.trace } "query" q sq ("Final Execution Error: " ++ e) with hl2 | hl2 <;>
            · rw [hl2] at h
              rw [Prod.mk.injEq] at h
              exact absurd h.1 (by simp)
        · simp only [hn, Bool.false_eq_true, if_false] at h
          obtain ⟨t, hteq, ht⟩ := ih _ _ _ _ _ h
          exact ⟨t, by simpa using hteq, ht⟩
        · simp only [hn, if_true] at h
          rcases hlog_cases env.logOk _ "query" q sq ("Final Execution Error: " ++ e) with hl2 | hl2 <;>
            · rw [hl2] at h
              rw [Prod.mk.injEq] at h
              exact absurd h.1 (by simp)
        · simp only [hn, Bool.false_eq_true, if_false] at h
          obtain ⟨t, hteq, ht⟩ := ih _ _ _ _ _ h
          refine ⟨{ id := s.db.nextId, timestamp := s.db.clock, source := "query", prompt := q, generatedQuery := sq, executionResult := "Execution Error: " ++ e, userFeedback := 0 } :: t, ?_, ?_⟩
          · simp only at hteq
            rw [hteq]
            simp
          · intro r hr
            rcases List.mem_cons.mp hr with hr | hr
            · exact ⟨e, by rw [hr]⟩
            · exact ht r hr
      · simp only [hx] at h
        rw [Prod.mk.injEq] at h
        obtain ⟨h1, h2⟩ := h
        subst h2
        exact ⟨[], by simp, by simp⟩

theorem runLoop_trace_ids (env : Env) (q : String) :
    ∀ fuel attempt s,
      s.db.nextId ≤ (runLoop env q attempt fuel s).2.db.nextId ∧
      ∃ t, (runLoop env q attempt fuel s).2.trace = s.trace ++ t ∧
        ∀ r ∈ t, s.db.nextId ≤ r.id := by
  intro fuel
  induction fuel with
  | zero =>
    intro attempt s
    simp [runLoop]
  | succ n ih =>
    intro attempt s
    simp only [runLoop]
    rcases hg : env.gen attempt with e | sq
    · simp only [hg]
      by_cases hn : (n == 0) = true
      · simp only [hn, if_true]
        rcases hlog_cases env.logOk s "query" q "" ("Failed to generate SQL: " ++ e) with hl | hl <;>
          rw [hl]
        · exact ⟨le_refl _, [], by simp, by simp⟩
        · refine ⟨by show s.db.nextId ≤ s.db.nextId + 1; omega, ?_⟩
          refine ⟨[{ id := s.db.nextId, timestamp := s.db.clock, source := "query", prompt := q, generatedQuery := "", executionResult := "Failed to generate SQL: " ++ e, userFeedback := 0 }], rfl, ?_⟩
          intro r hr
          rw [List.mem_singleton] at hr
          rw [hr]
      · simp only [hn, Bool.false_eq_true, if_false]
        exact ih (attempt + 1) s
    · simp only [hg]
      rcases hx : execRoute env attempt sq with e | r
      · simp only [hx]
        rcases hlog_cases env.logOk s "query" q sq ("Execution Error: " ++ e) with hl | hl <;>
          rw [hl] <;> by_cases hn : (n == 0) = true
        · simp only [hn, if_true]
          rcases hlog_cases env.logOk { db := s.db, calls := s.calls + 1, trace := s.trace } "query" q sq ("Final Execution Error: " ++ e) with hl2 | hl2 <;>
            rw [hl2]
          · exact ⟨le_refl _, [], by simp, by simp⟩
          · refine ⟨by show s.db.nextId ≤ s.db.nextId + 1; omega, ?_⟩
            refine ⟨[{ id := s.db.nextId, timestamp := s.db.clock, source := "query", prompt := q, generatedQuery := sq, executionResult := "Final Execution Error: " ++ e, userFeedback := 0 }], rfl, ?_⟩
            intro r hr
            rw [List.mem_singleton] at hr
            rw [hr]
        · simp only [hn, Bool.false_eq_true, if_false]
          exact ih (attempt + 1) _
        · simp only [hn, if_true]
          rcases hlog_cases env.logOk { db := { rows := s.db.rows ++ [{ id := s.db.nextId, timestamp := s.db.clock, source := "query", prompt := q, generatedQuery := sq, executionResult := "Execution Error: " ++ e, userFeedback := 0 }], nextId := s.db.nextId + 1, clock := s.db.clock + 1 }, calls := s.calls + 1, trace := s.trace ++ [{ id := s.db.nextId, timestamp := s.db.clock, source := "query", prompt := q, generatedQuery := sq, executionResult := "Execution Error: " ++ e, userFeedback := 0 }] } "query" q sq ("Final Execution Error: " ++ e) with hl2 | hl2 <;>
            rw [hl2]
          · refine ⟨by show s.db.nextId ≤ s.db.nextId + 1; omega, ?_⟩
            refine ⟨[{ id := s.db.nextId, timestamp := s.db.clock, source := "query", prompt := q, generatedQuery := sq, executionResult := "Execution Error: " ++ e, userFeedback := 0 }], by simp, ?_⟩
            intro r hr
            rw [List.mem_singleton] at hr
            rw [hr]
          · refine ⟨by show s.db.nextId ≤ s.db.nextId + 1 + 1; omega, ?_⟩
            refine ⟨[{ id := s.db.nextId, timestamp := s.db.clock, source := "query", prompt := q, generatedQuery := sq, executionResult := "Execution Error: " ++ e, userFeedback := 0 },
                     { id := s.db.nextId + 1, timestamp := s.db.clock + 1, source := "query", prompt := q, generatedQuery := sq, executionResult := "Final Execution Error: " ++ e, userFeedback := 0 }], by simp, ?_⟩
            intro r hr
            rcases List.mem_cons.mp hr with hr | hr
            · rw [hr]
            · rw [List.mem_singleton] at hr
              rw [hr]
              simp
        · simp only [hn, Bool.false_eq_true, if_false]
          obtain ⟨hle, t, hteq, ht⟩ := ih (attempt + 1)
            { db := { rows := s.db.rows ++ [{ id := s.db.nextId, timestamp := s.db.clock, source := "query", prompt := q, generatedQuery := sq, executionResult := "Execution Error: " ++ e, userFeedback := 0 }], nextId := s.db.nextId + 1, clock := s.db.clock + 1 }, calls := s.calls + 1, trace := s.trace ++ [{ id := s.db.nextId, timestamp := s.db.clock, source := "query", prompt := q, generatedQuery := sq, executionResult := "Execution Error: " ++ e, userFeedback := 0 }] }
          simp only at hle hteq
          refine ⟨by omega, ?_⟩
          refine ⟨{ id := s.db.nextId, timestamp := s.db.clock, source := "query", prompt := q, generatedQuery := sq, executionResult := "Execution Error: " ++ e, userFeedback := 0 } :: t, ?_, ?_⟩
          · rw [hteq]
            simp
          · intro r hr
            rcases List.mem_cons.mp hr with hr | hr
            · rw [hr]
            · have := ht r hr
              simp only at this
              omega
      · simp only [hx]
        exact ⟨le_refl _, [], by simp, by simp⟩

theorem runLoop_fail_shape (env : Env) (q : String) :
    ∀ fuel attempt s resp s1, runLoop env q attempt fuel s = (LoopRes.fail resp, s1) →
      resp.answer = "" ∧ resp.error ≠ "" ∧
      (resp.interactionID = 0 ∨
        ∃ r ∈ s1.trace, r.id = resp.interactionID ∧ s.db.nextId ≤ r.id) := by
  have hne1 : ∀ e : String,
      "Failed to generate MetricsQL after " ++ toString maxRetries ++ " attempts: " ++ e ≠ "" :=
    fun e => go_append_ne_empty _ _ (go_append_ne_empty _ _ (go_append_ne_empty _ _ (by decide)))
  have hne2 : ∀ e : String,
      "Failed to execute query after " ++ toString maxRetries ++ " attempts: " ++ e ≠ "" :=
    fun e => go_append_ne_empty _ _ (go_append_ne_empty _ _ (go_append_ne_empty _ _ (by decide)))
  intro fuel
  induction fuel with
  | zero =>
    intro attempt s resp s1 h
    simp only [runLoop] at h
    rw [Prod.mk.injEq] at h
    exact absurd h.1 (by simp)
  | succ n ih =>
    intro attempt s resp s1 h
    simp only [runLoop] at h
    rcases hg : env.gen attempt with e | sq
    · simp only [hg] at h
      by_cases hn : (n == 0) = true
      · simp only [hn, if_true] at h
        rcases hlog_cases env.logOk s "query" q "" ("Failed to generate SQL: " ++ e) with hl | hl <;>
          rw [hl] at h <;> rw [Prod.mk.injEq] at h <;> obtain ⟨h1, h2⟩ := h <;>
          rw [LoopRes.fail.injEq] at h1 <;> subst h1 <;> subst h2
        · exact ⟨rfl, hne1 e, Or.inl rfl⟩
        · refine ⟨rfl, hne1 e, Or.inr ?_⟩
          refine ⟨{ id := s.db.nextId, timestamp := s.db.clock, source := "query", prompt := q, generatedQuery := "", executionResult := "Failed to generate SQL: " ++ e, userFeedback := 0 }, ?_, rfl, le_refl _⟩
          simp
      · simp only [hn, Bool.false_eq_true, if_false] at h
        exact ih _ _ _ _ h
    · simp only [hg] at h
      rcases hx : execRoute env attempt sq with e | r
      · simp only [hx] at h
        rcases hlog_cases env.logOk s "query" q sq ("Execution Error: " ++ e) with hl | hl <;>
          rw [hl] at h <;> by_cases hn : (n == 0) = true
        · simp only [hn, if_true] at h
          rcases hlog_cases env.logOk { db := s.db, calls := s.calls + 1, trace := s.trace } "query" q sq ("Final Execution Error: " ++ e) with hl2 | hl2 <;>
            rw [hl2] at h <;> rw [Prod.mk.injEq] at h <;> obtain ⟨h1, h2⟩ := h <;>
            rw [LoopRes.fail.injEq] at h1 <;> subst h1 <;> subst h2
          · exact ⟨rfl, hne2 e, Or.inl rfl⟩
          · refine ⟨rfl, hne2 e, Or.inr ?_⟩
            refine ⟨{ id := s.db.nextId, timestamp := s.db.clock, source := "query", prompt := q, generatedQuery := sq, executionResult := "Final Execution Error: " ++ e, userFeedback := 0 }, ?_, rfl, le_refl _⟩
            simp
        · simp only [hn, Bool.false_eq_true, if_false] at h
          obtain ⟨ha, he, hid⟩ := ih _ _ _ _ h
          refine ⟨ha, he, ?_⟩
          rcases hid with hid | ⟨r, hr, hid, hle⟩
          · exact Or.inl hid
          · exact Or.inr ⟨r, hr, hid, hle⟩
        · simp only [hn, if_true] at h
          rcases hlog_cases env.logOk { db := { rows := s.db.rows ++ [{ id := s.db.nextId, timestamp := s.db.clock, source := "query", prompt := q, generatedQuery := sq, executionResult := "Execution Error: " ++ e, userFeedback := 0 }], nextId := s.db.nextId + 1, clock := s.db.clock + 1 }, calls := s.calls + 1, trace := s.trace ++ [{ id := s.db.nextId, timestamp := s.db.clock, source := "query", prompt := q, generatedQuery := sq, executionResult := "Execution Error: " ++ e, userFeedback := 0 }] } "query" q sq ("Final Execution Error: " ++ e) with hl2 | hl2 <;>
            rw [hl2] at h <;> rw [Prod.mk.injEq] at h <;> obtain ⟨h1, h2⟩ := h <;>
            rw [LoopRes.fail.injEq] at h1 <;> subst h1 <;> subst h2
          · exact ⟨rfl, hne2 e, Or.inl rfl⟩
          · refine ⟨rfl, hne2 e, Or.inr ?_⟩
            refine ⟨{ id := s.db.nextId + 1, timestamp := s.db.clock + 1, source := "query", prompt := q, generatedQuery := sq, executionResult := "Final Execution Error: " ++ e, userFeedback := 0 }, ?_, rfl, by show s.db.nextId ≤ s.db.nextId + 1; omega⟩
            simp
        · simp only [hn, Bool.false_eq_true, if_false] at h
          obtain ⟨ha, he, hid⟩ := ih _ _ _ _ h
          refine ⟨ha, he, ?_⟩
          rcases hid with hid | ⟨r, hr, hid, hle⟩
          · exact Or.inl hid
          · refine Or.inr ⟨r, hr, hid, ?_⟩
            simp only at hle
            omega
      · simp only [hx] at h
        rw [Prod.mk.injEq] at h
        exact absurd h.1 (by simp)

/-! ## Claim theorems -/

/-- C4: a generated query text beginning with the exact, case-sensitive
`LOG:` is dispatched to `QueryLogs` with the 4-character tag dropped and
surrounding whitespace trimmed; any other text is dispatched to
`QueryMetrics`, with a leading `METRIC:` (7 characters) dropped and trimmed
when present; a text with no recognized tag still goes to `QueryMetrics`
(trimmed, otherwise untouched) rather than failing. -/
theorem C4_generated_query_routing (env : Env) (attempt : Nat) (s : String) :
    (goHasPre s "LOG:" = true →
      execRoute env attempt s = env.queryLogs attempt (goTrimSpace (String.mk (s.toList.drop 4)))) ∧
    (goHasPre s "LOG:" = false → goHasPre s "METRIC:" = true →
      execRoute env attempt s = env.queryMetrics attempt (goTrimSpace (String.mk (s.toList.drop 7)))) ∧
    (goHasPre s "LOG:" = false → goHasPre s "METRIC:" = false →
      execRoute env attempt s = env.queryMetrics attempt (goTrimSpace s)) := by
  refine ⟨fun h1 => ?_, fun h1 h2 => ?_, fun h1 h2 => ?_⟩
  · have hlen : ("LOG:".toList.length) = 4 := by decide
    rw [execRoute, routeQuery]
    simp [goTrimPre, h1, hlen]
  · have hlen : ("METRIC:".toList.length) = 7 := by decide
    rw [execRoute, routeQuery]
    simp [goTrimPre, h1, h2, hlen]
  · rw [execRoute, routeQuery]
    simp [goTrimPre, h1, h2]

/-- Witness for C4 at the three concrete inputs `"LOG: err | limit 5 "`,
`"METRIC: avg(x)"` and `"avg(x)"`. -/
theorem C4_generated_query_routing_witness :
    (∀ env : Env, ∀ attempt : Nat,
      execRoute env attempt "LOG: err | limit 5 " = env.queryLogs attempt "err | limit 5" ∧
      execRoute env attempt "METRIC: avg(x)" = env.queryMetrics attempt "avg(x)" ∧
      execRoute env attempt "avg(x)" = env.queryMetrics attempt "avg(x)") := by
  intro env attempt
  refine ⟨?_, ?_, ?_⟩
  · have h := (C4_generated_query_routing env attempt "LOG: err | limit 5 ").1 (by decide)
    rw [h]
    rfl
  · have h := (C4_generated_query_routing env attempt "METRIC: avg(x)").2.1 (by decide) (by decide)
    rw [h]
    rfl
  · have h := (C4_generated_query_routing env attempt "avg(x)").2.2 (by decide) (by decide)
    rw [h]
    rfl

/-- C7: for an id produced by a prior `Append` (`LogExperience`),
`SetFeedback(id, v)` (`UpdateFeedback`) succeeds; a subsequent read of that
id yields the row with `user_feedback = v` and every other field exactly as
appended; every other row keeps its position and contents, every row keeps
its id, timestamp, source, prompt, generated query and execution result, and
the store's id counter and clock are untouched. -/
theorem C7_setFeedback_updates_only_user_feedback (db : RLDB) (hwf : db.wf)
    (source prompt gq res : String) (v : Int) (id : Int) (db1 : RLDB)
    (happ : logExperience true db source prompt gq res = (id, db1)) :
    ∃ db2, updateFeedback db1 id v = Except.ok db2 ∧
      getRow db2 id = some { id := id, timestamp := db.clock, source := source, prompt := prompt, generatedQuery := gq, executionResult := res, userFeedback := v } ∧
      db2.nextId = db1.nextId ∧ db2.clock = db1.clock ∧
      db2.rows.length = db1.rows.length ∧
      (∀ i : Nat, ∀ r1 ∈ db1.rows[i]?, r1.id ≠ id → db2.rows[i]? = some r1) ∧
      (∀ i : Nat, ∀ r1 ∈ db1.rows[i]?, ∀ r2 ∈ db2.rows[i]?,
        r2.id = r1.id ∧ r2.timestamp = r1.timestamp ∧ r2.source = r1.source ∧ r2.prompt = r1.prompt ∧ r2.generatedQuery = r1.generatedQuery ∧ r2.executionResult = r1.executionResult) := by
  rw [logExperience] at happ
  simp only [if_pos, Prod.mk.injEq] at happ
  obtain ⟨hid, hdb1⟩ := happ
  subst hid
  subst hdb1
  set row : Experience :=
    { id := db.nextId, timestamp := db.clock, source := source, prompt := prompt,
      generatedQuery := gq, executionResult := res, userFeedback := 0 } with hrow
  set f : Experience → Experience :=
    fun r => if r.id == db.nextId then { r with userFeedback := v } else r with hf
  have hpn : ∀ r ∈ db.rows, (r.id == db.nextId) = false := by
    intro r hr
    have := hwf r hr
    simp only [beq_eq_false_iff_ne, ne_eq]
    omega
  have hcount : 0 < (db.rows ++ [row]).countP (fun r => r.id == db.nextId) := by
    rw [List.countP_append]
    have : List.countP (fun r => r.id == db.nextId) [row] = 1 := by
      simp [hrow]
    omega
  refine ⟨_, updateFeedback_ok_eq _ _ v hcount, ?_, rfl, rfl, by simp, ?_, ?_⟩
  · show ((db.rows ++ [row]).map f).find? (fun r => r.id == db.nextId) = _
    rw [List.map_append, List.find?_append]
    have h1 : (db.rows.map f).find? (fun r => r.id == db.nextId) = none := by
      rw [List.find?_eq_none]
      intro x hx
      obtain ⟨r, hr, hfr⟩ := List.mem_map.mp hx
      have hne := hpn r hr
      have : f r = r := by
        rw [hf]
        simp [hne]
      rw [← hfr, this]
      simp only [hne, Bool.false_eq_true, not_false_iff]
    rw [h1]
    have h2 : f row = { row with userFeedback := v } := by
      rw [hf]
      simp [hrow]
    simp [h2, hrow]
  · intro i r1 hr1 hne
    show ((db.rows ++ [row]).map f)[i]? = some r1
    rw [List.getElem?_map]
    simp only [Option.mem_def] at hr1
    rw [hr1]
    have : f r1 = r1 := by
      rw [hf]
      simp only [beq_eq_false_iff_ne, ne_eq]
      simp [hne]
    simp [this]
  · intro i r1 hr1 r2 hr2
    simp only [Option.mem_def] at hr1 hr2
    have : ((db.rows ++ [row]).map f)[i]? = Option.map f (db.rows ++ [row])[i]? :=
      List.getElem?_map f _ i
    rw [this, hr1] at hr2
    simp only [Option.map_some', Option.some.injEq] at hr2
    subst hr2
    rw [hf]
    by_cases hc : (r1.id == db.nextId) = true <;> simp [hc]

/-- Witness for C7: append one row to the fresh store, then set its feedback
to 1. -/
theorem C7_setFeedback_updates_only_user_feedback_witness :
    initDB.wf ∧
    ∃ db2, updateFeedback { rows := [{ id := 1, timestamp := 0, source := "query", prompt := "p", generatedQuery := "g", executionResult := "Success", userFeedback := 0 }], nextId := 2, clock := 1 } 1 1 = Except.ok db2 ∧
      getRow db2 1 = some { id := 1, timestamp := 0, source := "query", prompt := "p", generatedQuery := "g", executionResult := "Success", userFeedback := 1 } ∧
      db2.nextId = 2 ∧ db2.clock = 1 ∧
      db2.rows.length = 1 ∧
      (∀ i : Nat, ∀ r1 ∈ ({ rows := [{ id := 1, timestamp := 0, source := "query", prompt := "p", generatedQuery := "g", executionResult := "Success", userFeedback := 0 }], nextId := 2, clock := 1 } : RLDB).rows[i]?, r1.id ≠ 1 → db2.rows[i]? = some r1) ∧
      (∀ i : Nat, ∀ r1 ∈ ({ rows := [{ id := 1, timestamp := 0, source := "query", prompt := "p", generatedQuery := "g", executionResult := "Success", userFeedback := 0 }], nextId := 2, clock := 1 } : RLDB).rows[i]?, ∀ r2 ∈ db2.rows[i]?,
        r2.id = r1.id ∧ r2.timestamp = r1.timestamp ∧ r2.source = r1.source ∧ r2.prompt = r1.prompt ∧ r2.generatedQuery = r1.generatedQuery ∧ r2.executionResult = r1.executionResult) := by
  constructor
  · intro r hr
    simp [initDB] at hr
  · exact C7_setFeedback_updates_only_user_feedback initDB
      (by intro r hr; simp [initDB] at hr) "query" "p" "g" "Success" 1 1 _ (by decide)

/-- C8: the feedback endpoint is idempotent: when a `/feedback` request
succeeds (the 200 reply), repeating the identical request (same interaction
id, same feedback value) does not error — it returns the very same 200 reply
— and leaves the store exactly as after the first call, so the row's
`user_feedback` after the second call equals its value after the first. -/
theorem C8_feedback_idempotent (db : RLDB) (req : FeedbackRequest) (r : HttpReply) (db1 : RLDB)
    (h : handleFeedback db req = (r, db1)) (hok : r.status = 200) :
    handleFeedback db1 req = (r, db1) := by
  rcases hupd : updateFeedback db req.interactionID req.feedback with e | db2
  · rw [handleFeedback, hupd] at h
    rw [Prod.mk.injEq] at h
    obtain ⟨hr, hdb⟩ := h
    subst hr
    simp at hok
  · rw [handleFeedback, hupd] at h
    rw [Prod.mk.injEq] at h
    obtain ⟨hr, hdb⟩ := h
    subst hr
    subst hdb
    have hcount : 0 < db.rows.countP (fun x => x.id == req.interactionID) :=
      (updateFeedback_ok_iff db req.interactionID req.feedback).mp ⟨db2, hupd⟩
    rw [updateFeedback_ok_eq db req.interactionID req.feedback hcount] at hupd
    rw [Except.ok.injEq] at hupd
    subst hupd
    set f : Experience → Experience :=
      fun x => if x.id == req.interactionID then { x with userFeedback := req.feedback } else x with hf
    have hfid : ∀ x : Experience, (f x).id = x.id := by
      intro x
      simp only [hf]
      split <;> rfl
    have hcount2 : 0 < (db.rows.map f).countP (fun x => x.id == req.interactionID) := by
      rw [List.countP_map]
      calc 0 < db.rows.countP (fun x => x.id == req.interactionID) := hcount
        _ = _ := by
          refine (List.countP_congr ?_).symm
          intro x _
          simp [Function.comp, hfid x]
    rw [handleFeedback]
    rw [updateFeedback_ok_eq _ req.interactionID req.feedback hcount2]
    have hmap : (db.rows.map f).map f = db.rows.map f := by
      rw [List.map_map]
      refine List.map_congr_left ?_
      intro x _
      show f (f x) = f x
      by_cases hc : (x.id == req.interactionID) = true
      · have h1 : f x = { x with userFeedback := req.feedback } := by
          rw [hf]
          simp [hc]
        rw [h1]
        rw [hf]
        simp [hc]
      · have h1 : f x = x := by
          rw [hf]
          simp [hc]
        rw [h1, h1]
    have hupd2 : updateFeedback { db with rows := db.rows.map f } req.interactionID req.feedback =
        Except.ok { db with rows := db.rows.map f } := by
      rw [updateFeedback_ok_eq _ _ _ hcount2]
      refine congrArg Except.ok ?_
      rw [RLDB.mk.injEq]
      exact ⟨hmap, rfl, rfl⟩
    simp only [handleFeedback, hupd2]
    rw [← hf]
    rw [Prod.mk.injEq]
    refine ⟨rfl, ?_⟩
    rw [RLDB.mk.injEq]
    exact ⟨hmap, rfl, rfl⟩

/-- Witness for C8: set feedback 1 twice on the single appended row. -/
theorem C8_feedback_idempotent_witness :
    handleFeedback { rows := [{ id := 1, timestamp := 0, source := "query", prompt := "p", generatedQuery := "g", executionResult := "Success", userFeedback := 1 }], nextId := 2, clock := 1 } { interactionID := 1, feedback := 1 } =
      ({ status := 200, body := "\x7b\"status\": \"ok\"\x7d" },
       { rows := [{ id := 1, timestamp := 0, source := "query", prompt := "p", generatedQuery := "g", executionResult := "Success", userFeedback := 1 }], nextId := 2, clock := 1 }) := by
  exact C8_feedback_idempotent
    { rows := [{ id := 1, timestamp := 0, source := "query", prompt := "p", generatedQuery := "g", executionResult := "Success", userFeedback := 0 }], nextId := 2, clock := 1 }
    { interactionID := 1, feedback := 1 } _ _ (by decide) (by decide)

/-- C6 counterexample: feeding back on id 5 against the fresh (empty) store
is answered with HTTP status 500 — `http.StatusInternalServerError`, a server
error, not a 4xx client error as the claim states — though the store is
indeed left unmutated. -/
theorem C6_counterexample :
    (handleFeedback initDB { interactionID := 5, feedback := 1 }).1.status = 500 ∧
    ¬(400 ≤ (handleFeedback initDB { interactionID := 5, feedback := 1 }).1.status ∧
      (handleFeedback initDB { interactionID := 5, feedback := 1 }).1.status < 500) ∧
    (handleFeedback initDB { interactionID := 5, feedback := 1 }).2 = initDB := by
  refine ⟨by decide, ?_, by decide⟩
  intro h
  have h5 : (handleFeedback initDB { interactionID := 5, feedback := 1 }).1.status = 500 := by decide
  omega

/-- C6 amended: `UpdateFeedback` on an id with no matching row returns the
not-found error `"experience ID <id> not found"` and mutates no row; the
feedback handler surfaces it to the caller, but as an HTTP 500 internal
server error (with the message in the body), not as a 4xx client error. -/
theorem C6_feedback_not_found (db : RLDB) (id v : Int) (h : getRow db id = none) :
    updateFeedback db id v = Except.error ("experience ID " ++ toString id ++ " not found") ∧
    handleFeedback db { interactionID := id, feedback := v } =
      ({ status := 500, body := "Failed to update feedback: " ++ ("experience ID " ++ toString id ++ " not found") }, db) := by
  have hzero : db.rows.countP (fun r => r.id == id) = 0 :=
    countP_eq_zero_of_find?_none h
  have herr := updateFeedback_err_eq db id v hzero
  refine ⟨herr, ?_⟩
  rw [handleFeedback, herr]

/-- Witness for C6 amended: id 7 against the empty store. -/
theorem C6_feedback_not_found_witness :
    getRow initDB 7 = none ∧
    updateFeedback initDB 7 (-1) = Except.error "experience ID 7 not found" ∧
    handleFeedback initDB { interactionID := 7, feedback := -1 } =
      ({ status := 500, body := "Failed to update feedback: experience ID 7 not found" }, initDB) := by
  have h := C6_feedback_not_found initDB 7 (-1) (by decide)
  exact ⟨by decide, h.1, h.2⟩

/-- C5 counterexample: the server's feedback endpoint does not validate the
feedback value at all — a request with `feedback = 5` (which corresponds to
no `"good"`/`"bad"` literal and is outside {1, -1}) on an existing row is
accepted with status 200 and the value 5 is written to the row, refuting
"any other feedback literal is rejected as a client error". -/
theorem C5_counterexample :
    handleFeedback { rows := [{ id := 1, timestamp := 0, source := "query", prompt := "p", generatedQuery := "g", executionResult := "Success", userFeedback := 0 }], nextId := 2, clock := 1 } { interactionID := 1, feedback := 5 } =
      ({ status := 200, body := "\x7b\"status\": \"ok\"\x7d" },
       { rows := [{ id := 1, timestamp := 0, source := "query", prompt := "p", generatedQuery := "g", executionResult := "Success", userFeedback := 5 }], nextId := 2, clock := 1 }) := by
  decide

/-- C5 amended: the `good`/`bad` → 1/−1 mapping, the rejection of any other
literal and the rejection of interaction id 0 are enforced by the CLI client
(`cliFeedbackValue`), not by the server: the server's feedback endpoint
accepts any integer feedback value whenever the id matches a row, and a
request with id 0 fails only because no row ever has id 0 — surfaced as a
500, not a dedicated client-error rejection. -/
theorem C5_feedback_contract_split :
    (∀ id : Int, id ≠ 0 → cliFeedbackValue id "good" = some 1 ∧ cliFeedbackValue id "bad" = some (-1)) ∧
    (∀ (id : Int) (fb : String), goToLower fb ≠ "good" → goToLower fb ≠ "bad" →
      cliFeedbackValue id fb = none) ∧
    (∀ fb : String, cliFeedbackValue 0 fb = none) ∧
    (∀ (db : RLDB) (id v : Int), 0 < db.rows.countP (fun r => r.id == id) →
      (handleFeedback db { interactionID := id, feedback := v }).1.status = 200) ∧
    (∀ (db : RLDB) (v : Int), (∀ r ∈ db.rows, r.id ≠ 0) →
      (handleFeedback db { interactionID := 0, feedback := v }).1.status = 500) := by
  refine ⟨?_, ?_, ?_, ?_, ?_⟩
  · intro id hid
    have h0 : (id == 0) = false := by
      simp only [beq_eq_false_iff_ne, ne_eq]
      simp [hid]
    constructor <;>
      · rw [cliFeedbackValue]
        rw [if_neg (by simp [h0])]
        decide
  · intro id fb h1 h2
    rw [cliFeedbackValue]
    have e1 : (goToLower fb == "good") = false := by
      simp only [beq_eq_false_iff_ne, ne_eq]
      simp [h1]
    have e2 : (goToLower fb == "bad") = false := by
      simp only [beq_eq_false_iff_ne, ne_eq]
      simp [h2]
    simp [e1, e2]
  · intro fb
    rw [cliFeedbackValue]
    simp
  · intro db id v hc
    rw [handleFeedback, updateFeedback_ok_eq db id v hc]
  · intro db v hids
    have hzero : db.rows.countP (fun r => r.id == (0 : Int)) = 0 := by
      rw [List.countP_eq_zero]
      intro r hr
      simp [hids r hr]
    rw [handleFeedback, updateFeedback_err_eq db 0 v hzero]

/-- Witness for C5 amended at concrete inputs: the CLI mapping on
`"good"`, `"bad"`, `"maybe"` and id 0, and the server accepting `feedback=9`
on row 1 while answering 500 for id 0. -/
theorem C5_feedback_contract_split_witness :
    cliFeedbackValue 1 "good" = some 1 ∧ cliFeedbackValue 1 "bad" = some (-1) ∧
    cliFeedbackValue 1 "maybe" = none ∧ cliFeedbackValue 0 "good" = none ∧
    (handleFeedback { rows := [{ id := 1, timestamp := 0, source := "query", prompt := "p", generatedQuery := "g", executionResult := "Success", userFeedback := 0 }], nextId := 2, clock := 1 } { interactionID := 1, feedback := 9 }).1.status = 200 ∧
    (handleFeedback { rows := [{ id := 1, timestamp := 0, source := "query", prompt := "p", generatedQuery := "g", executionResult := "Success", userFeedback := 0 }], nextId := 2, clock := 1 } { interactionID := 0, feedback := 1 }).1.status = 500 := by
  obtain ⟨h1, h2, h3, h4, h5⟩ := C5_feedback_contract_split
  refine ⟨(h1 1 (by decide)).1, (h1 1 (by decide)).2, ?_, h3 "maybe", ?_, ?_⟩
  · exact h2 1 "maybe" (by decide) (by decide)
  · exact h4 _ 1 9 (by decide)
  · exact h5 _ 1 (by decide)

/-- C3 counterexample: with generation failing as `timeout` on all 3 attempts
the single logged row's `execution_result` is `"Failed to generate SQL:
timeout"` — not `"Failed to generate query: timeout"` — and the response
error is `"Failed to generate MetricsQL after 3 attempts: timeout"` — not
`"Failed to generate query after 3 attempts: timeout"` as the claim and the
spec's scenario 2 state. -/
theorem C3_counterexample :
    (handleQuery genFailEnv "q" (initState initDB)).1.error =
      "Failed to generate MetricsQL after 3 attempts: timeout" ∧
    (handleQuery genFailEnv "q" (initState initDB)).1.error ≠
      "Failed to generate query after 3 attempts: timeout" ∧
    (handleQuery genFailEnv "q" (initState initDB)).2.trace.map (fun r => r.executionResult) =
      ["Failed to generate SQL: timeout"] ∧
    (∀ r ∈ (handleQuery genFailEnv "q" (initState initDB)).2.trace,
      r.executionResult ≠ "Failed to generate query: timeout") := by
  decide

/-- C3 amended: when `GenerateSQL` fails on all 3 attempts (log writes
succeeding), the non-final attempts write nothing; exactly one row is
appended, on the final attempt, with `generated_query = ""` and
`execution_result = "Failed to generate SQL: <err>"` (not "generate query"),
and the response is the failure `"Failed to generate MetricsQL after 3
attempts: <err>"` carrying that row's id. -/
theorem C3_generation_failure_single_final_log (env : Env) (q : String) (s0 : HState)
    (e1 e2 e3 : String)
    (hg1 : env.gen 1 = Except.error e1) (hg2 : env.gen 2 = Except.error e2)
    (hg3 : env.gen 3 = Except.error e3) (hlo : ∀ n, env.logOk n = true) :
    handleQuery env q s0 =
      (respondError ("Failed to generate MetricsQL after 3 attempts: " ++ e3) s0.db.nextId,
       { db := { rows := s0.db.rows ++ [{ id := s0.db.nextId, timestamp := s0.db.clock, source := "query", prompt := q, generatedQuery := "", executionResult := "Failed to generate SQL: " ++ e3, userFeedback := 0 }], nextId := s0.db.nextId + 1, clock := s0.db.clock + 1 },
         calls := s0.calls + 1,
         trace := s0.trace ++ [{ id := s0.db.nextId, timestamp := s0.db.clock, source := "query", prompt := q, generatedQuery := "", executionResult := "Failed to generate SQL: " ++ e3, userFeedback := 0 }] }) := by
  have ht : "Failed to generate MetricsQL after " ++ toString maxRetries ++ " attempts: " ++ e3 =
      "Failed to generate MetricsQL after 3 attempts: " ++ e3 := by
    rw [show toString maxRetries = "3" from by decide]
    rw [show "Failed to generate MetricsQL after " ++ "3" ++ " attempts: " = "Failed to generate MetricsQL after 3 attempts: " from by decide]
  have hl := hlog_true env.logOk s0 "query" q "" ("Failed to generate SQL: " ++ e3) (hlo s0.calls)
  rw [handleQuery]
  rw [show maxRetries = 3 from rfl]
  simp only [runLoop, hg1, hg2, hg3]
  norm_num
  rw [hl, ht]
  exact ⟨rfl, rfl⟩

/-- Witness for C3 amended: the `timeout` scenario from the fresh store. -/
theorem C3_generation_failure_single_final_log_witness :
    handleQuery genFailEnv "q" (initState initDB) =
      (respondError "Failed to generate MetricsQL after 3 attempts: timeout" 1,
       { db := { rows := [{ id := 1, timestamp := 0, source := "query", prompt := "q", generatedQuery := "", executionResult := "Failed to generate SQL: timeout", userFeedback := 0 }], nextId := 2, clock := 1 },
         calls := 1,
         trace := [{ id := 1, timestamp := 0, source := "query", prompt := "q", generatedQuery := "", executionResult := "Failed to generate SQL: timeout", userFeedback := 0 }] }) := by
  have h := C3_generation_failure_single_final_log genFailEnv "q" (initState initDB)
    "timeout" "timeout" "timeout" rfl rfl rfl (fun _ => rfl)
  simpa using h

/-- C2 counterexample: with execution failing as `syntax error` on all 3
attempts, the run logs 4 execution-failure rows — one `"Execution Error:"`
row per attempt plus the final `"Final Execution Error:"` row — not 3 as the
claim counts; the response failure carries the final row's id 4. -/
theorem C2_counterexample :
    (handleQuery execFailEnv "q" (initState initDB)).2.trace.map (fun r => r.executionResult) =
      ["Execution Error: syntax error", "Execution Error: syntax error",
       "Execution Error: syntax error", "Final Execution Error: syntax error"] ∧
    (handleQuery execFailEnv "q" (initState initDB)).2.trace.length ≠ 3 ∧
    (handleQuery execFailEnv "q" (initState initDB)).1 =
      { interactionID := 4, answer := "", error := "Failed to execute query after 3 attempts: syntax error" } := by
  decide

/-- C2 amended: when execution fails on every one of the 3 attempts
(generation succeeding, log writes succeeding), the run appends
`maxAttempts + 1 = 4` execution-failure rows: one `"Execution Error: <err>"`
row per attempt plus one final `"Final Execution Error: <err>"` row, the
last row being the `Final`-prefixed one; the handler returns failure
carrying that last row's id. -/
theorem C2_execution_failure_logs_each_attempt (env : Env) (q : String) (s0 : HState)
    (q1 q2 q3 e1 e2 e3 : String)
    (hg1 : env.gen 1 = Except.ok q1) (hg2 : env.gen 2 = Except.ok q2)
    (hg3 : env.gen 3 = Except.ok q3)
    (hx1 : execRoute env 1 q1 = Except.error e1)
    (hx2 : execRoute env 2 q2 = Except.error e2)
    (hx3 : execRoute env 3 q3 = Except.error e3)
    (hlo : ∀ n, env.logOk n = true) :
    (handleQuery env q s0).1 = respondError ("Failed to execute query after 3 attempts: " ++ e3) (s0.db.nextId + 3) ∧
    (handleQuery env q s0).2.trace = s0.trace ++
      [{ id := s0.db.nextId, timestamp := s0.db.clock, source := "query", prompt := q, generatedQuery := q1, executionResult := "Execution Error: " ++ e1, userFeedback := 0 },
       { id := s0.db.nextId + 1, timestamp := s0.db.clock + 1, source := "query", prompt := q, generatedQuery := q2, executionResult := "Execution Error: " ++ e2, userFeedback := 0 },
       { id := s0.db.nextId + 2, timestamp := s0.db.clock + 2, source := "query", prompt := q, generatedQuery := q3, executionResult := "Execution Error: " ++ e3, userFeedback := 0 },
       { id := s0.db.nextId + 3, timestamp := s0.db.clock + 3, source := "query", prompt := q, generatedQuery := q3, executionResult := "Final Execution Error: " ++ e3, userFeedback := 0 }] := by
  have ht : "Failed to execute query after " ++ toString maxRetries ++ " attempts: " ++ e3 =
      "Failed to execute query after 3 attempts: " ++ e3 := by
    rw [show toString maxRetries = "3" from by decide]
    rw [show "Failed to execute query after " ++ "3" ++ " attempts: " = "Failed to execute query after 3 attempts: " from by decide]
  rw [handleQuery]
  rw [show maxRetries = 3 from rfl]
  simp only [runLoop, hg1, hg2, hg3, hx1, hx2, hx3, hlog, logExperience, hlo, if_true, ht]
  norm_num
  constructor
  · congr 1
    ring
  · omega

/-- Witness for C2 amended: the `syntax error` scenario from the fresh
store. -/
theorem C2_execution_failure_logs_each_attempt_witness :
    (handleQuery execFailEnv "q" (initState initDB)).1 =
      respondError "Failed to execute query after 3 attempts: syntax error" 4 ∧
    (handleQuery execFailEnv "q" (initState initDB)).2.trace =
      [{ id := 1, timestamp := 0, source := "query", prompt := "q", generatedQuery := "METRIC: up", executionResult := "Execution Error: syntax error", userFeedback := 0 },
       { id := 2, timestamp := 1, source := "query", prompt := "q", generatedQuery := "METRIC: up", executionResult := "Execution Error: syntax error", userFeedback := 0 },
       { id := 3, timestamp := 2, source := "query", prompt := "q", generatedQuery := "METRIC: up", executionResult := "Execution Error: syntax error", userFeedback := 0 },
       { id := 4, timestamp := 3, source := "query", prompt := "q", generatedQuery := "METRIC: up", executionResult := "Final Execution Error: syntax error", userFeedback := 0 }] := by
  have h := C2_execution_failure_logs_each_attempt execFailEnv "q" (initState initDB)
    "METRIC: up" "METRIC: up" "METRIC: up" "syntax error" "syntax error" "syntax error"
    rfl rfl rfl rfl rfl rfl (fun _ => rfl)
  simpa using h

/-- C1: in every run of the query handler whose log writes succeed and that
produces a success response (empty `error`), exactly one Experience row of
the run has `execution_result = "Success"`, and the `interaction_id`
returned in the response equals that row's id. -/
theorem C1_success_single_success_row (env : Env) (q : String) (db0 : RLDB)
    (resp : QueryResponse) (s1 : HState)
    (hlo : ∀ n, env.logOk n = true)
    (hrun : handleQuery env q (initState db0) = (resp, s1))
    (hsucc : resp.error = "") :
    s1.trace.countP (fun r => r.executionResult == "Success") = 1 ∧
    ∀ r ∈ s1.trace, r.executionResult = "Success" → r.id = resp.interactionID := by
  have hEEne : ∀ e : String, "Execution Error: " ++ e ≠ "Success" := by
    intro e hc
    have hl := congrArg String.length hc
    rw [String.length_append] at hl
    rw [show ("Execution Error: ".length) = 17 from by decide] at hl
    rw [show ("Success".length) = 7 from by decide] at hl
    omega
  rw [handleQuery] at hrun
  rcases hloop : runLoop env q 1 maxRetries (initState db0) with ⟨lr, sl⟩
  rw [hloop] at hrun
  cases lr with
  | fail r0 =>
    rw [Prod.mk.injEq] at hrun
    obtain ⟨h1, h2⟩ := hrun
    subst h1
    exact absurd hsucc (runLoop_fail_shape env q maxRetries 1 _ _ _ hloop).2.1
  | ok sql res =>
    rcases hex : env.explain q sql res with e | expl
    · simp only [hex] at hrun
      rw [hlog_true env.logOk sl "query" q sql ("Failed to explain results: " ++ e) (hlo sl.calls)] at hrun
      simp only [Prod.mk.injEq] at hrun
      obtain ⟨h1, h2⟩ := hrun
      subst h1
      exact absurd hsucc (go_append_ne_empty _ _ (by decide))
    · simp only [hex] at hrun
      rw [hlog_true env.logOk sl "query" q sql "Success" (hlo sl.calls)] at hrun
      simp only [Prod.mk.injEq] at hrun
      obtain ⟨h1, h2⟩ := hrun
      subst h1
      subst h2
      obtain ⟨t, hteq, ht⟩ := runLoop_ok_trace env q maxRetries 1 (initState db0) sql res sl hloop
      have htr : sl.trace = t := by
        rw [hteq]
        rfl
    -- the final state appends the single Success row to the loop trace
      have hcz : t.countP (fun r => r.executionResult == "Success") = 0 := by
        rw [List.countP_eq_zero]
        intro r hr
        obtain ⟨e, he⟩ := ht r hr
        simp only [beq_iff_eq]
        rw [he]
        exact hEEne e
      constructor
      · show (sl.trace ++ [_]).countP _ = 1
        rw [List.countP_append, htr, hcz]
        simp
      · intro r hr hs
        rcases List.mem_append.mp hr with hr | hr
        · rw [htr] at hr
          obtain ⟨e, he⟩ := ht r hr
          exact absurd hs (by rw [he]; exact hEEne e)
        · rw [List.mem_singleton] at hr
          rw [hr]

/-- Witness for C1: the all-success scenario run. -/
theorem C1_success_single_success_row_witness :
    (∀ n, okEnv.logOk n = true) ∧
    (handleQuery okEnv "q" (initState initDB)).1.error = "" ∧
    (handleQuery okEnv "q" (initState initDB)).2.trace.countP (fun r => r.executionResult == "Success") = 1 ∧
    ∀ r ∈ (handleQuery okEnv "q" (initState initDB)).2.trace,
      r.executionResult = "Success" → r.id = (handleQuery okEnv "q" (initState initDB)).1.interactionID := by
  refine ⟨fun n => rfl, rfl, ?_⟩
  exact C1_success_single_success_row okEnv "q" initDB
    (handleQuery okEnv "q" (initState initDB)).1
    (handleQuery okEnv "q" (initState initDB)).2
    (fun _ => rfl) rfl rfl

theorem handleQuery_parts (env : Env) (q : String) (db0 : RLDB)
    (resp : QueryResponse) (s1 : HState) (h1 : 1 ≤ db0.nextId)
    (hrun : handleQuery env q (initState db0) = (resp, s1)) :
    (resp.answer = "" ∨ resp.error = "") ∧
    (resp.interactionID = 0 ∨ ∃ r ∈ s1.trace, r.id = resp.interactionID) ∧
    (∀ r ∈ s1.trace, 1 ≤ r.id) := by
  rw [handleQuery] at hrun
  rcases hloop : runLoop env q 1 maxRetries (initState db0) with ⟨lr, sl⟩
  rw [hloop] at hrun
  have hids := runLoop_trace_ids env q maxRetries 1 (initState db0)
  rw [hloop] at hids
  obtain ⟨hnle, t, hteq, hti⟩ := hids
  simp only [initState, List.nil_append] at hnle hteq hti
  have hslid : ∀ r ∈ sl.trace, 1 ≤ r.id := by
    intro r hr
    rw [hteq] at hr
    have := hti r hr
    omega
  have hslle : db0.nextId ≤ sl.db.nextId := hnle
  cases lr with
  | fail r0 =>
    rw [Prod.mk.injEq] at hrun
    obtain ⟨hr, hs⟩ := hrun
    subst hr
    subst hs
    have hfs := runLoop_fail_shape env q maxRetries 1 _ _ _ hloop
    refine ⟨Or.inl hfs.1, ?_, hslid⟩
    rcases hfs.2.2 with h0 | ⟨r, hrmem, hrid, hrle⟩
    · exact Or.inl h0
    · exact Or.inr ⟨r, hrmem, hrid⟩
  | ok sql res =>
    rcases hex : env.explain q sql res with e | expl
    · simp only [hex] at hrun
      rcases hlog_cases env.logOk sl "query" q sql ("Failed to explain results: " ++ e) with hl | hl <;>
        rw [hl] at hrun <;> simp only [Prod.mk.injEq] at hrun <;>
        obtain ⟨hr, hs⟩ := hrun <;> subst hr <;> subst hs
      · exact ⟨Or.inl rfl, Or.inl rfl, hslid⟩
      · refine ⟨Or.inl rfl, Or.inr ?_, ?_⟩
        · exact ⟨_, List.mem_append_right _ (List.mem_singleton.mpr rfl), rfl⟩
        · intro r hr
          rcases List.mem_append.mp hr with hr | hr
          · exact hslid r hr
          · rw [List.mem_singleton] at hr
            rw [hr]
            show 1 ≤ sl.db.nextId
            omega
    · simp only [hex] at hrun
      rcases hlog_cases env.logOk sl "query" q sql "Success" with hl | hl <;>
        rw [hl] at hrun <;> simp only [Prod.mk.injEq] at hrun <;>
        obtain ⟨hr, hs⟩ := hrun <;> subst hr <;> subst hs
      · exact ⟨Or.inr rfl, Or.inl rfl, hslid⟩
      · refine ⟨Or.inr rfl, Or.inr ?_, ?_⟩
        · exact ⟨_, List.mem_append_right _ (List.mem_singleton.mpr rfl), rfl⟩
        · intro r hr
          rcases List.mem_append.mp hr with hr | hr
          · exact hslid r hr
          · rw [List.mem_singleton] at hr
            rw [hr]
            show 1 ≤ sl.db.nextId
            omega

theorem handleRecommend_parts (renv : RecEnv) (db0 : RLDB)
    (resp : QueryResponse) (s1 : HState) (h1 : 1 ≤ db0.nextId)
    (hrun : handleRecommend renv (initState db0) = (resp, s1)) :
    (resp.answer = "" ∨ resp.error = "") ∧
    (resp.interactionID = 0 ∨ ∃ r ∈ s1.trace, r.id = resp.interactionID) ∧
    (∀ r ∈ s1.trace, 1 ≤ r.id) := by
  rw [handleRecommend] at hrun
  rcases hrec : renv.recommend (buildSystemData renv) with e | recs
  · simp only [hrec] at hrun
    rcases hlog_cases renv.logOk (initState db0) "recommend" "Generate system recommendations" "" ("Failed to generate recommendations: " ++ e) with hl | hl <;>
      rw [hl] at hrun <;> simp only [Prod.mk.injEq] at hrun <;>
      obtain ⟨hr, hs⟩ := hrun <;> subst hr <;> subst hs
    · exact ⟨Or.inl rfl, Or.inl rfl, by intro r hr; simp [initState] at hr⟩
    · refine ⟨Or.inl rfl, Or.inr ?_, ?_⟩
      · exact ⟨_, List.mem_singleton.mpr rfl, rfl⟩
      · intro r hr
        simp only [initState, List.nil_append, List.mem_singleton] at hr
        rw [hr]
        exact h1
  · simp only [hrec] at hrun
    rcases hlog_cases renv.logOk (initState db0) "recommend" "Generate system recommendations" "" "Success" with hl | hl <;>
      rw [hl] at hrun <;> simp only [Prod.mk.injEq] at hrun <;>
      obtain ⟨hr, hs⟩ := hrun <;> subst hr <;> subst hs
    · exact ⟨Or.inr rfl, Or.inl rfl, by intro r hr; simp [initState] at hr⟩
    · refine ⟨Or.inr rfl, Or.inr ?_, ?_⟩
      · exact ⟨_, List.mem_singleton.mpr rfl, rfl⟩
      · intro r hr
        simp only [initState, List.nil_append, List.mem_singleton] at hr
        rw [hr]
        exact h1

/-- C9: every response of the `/query` and `/recommend` handlers has `answer`
and `error` never both non-empty (the zero value fills the other field), and
the `interaction_id` field is omitted from the JSON (`omitempty`, i.e. it is
0) exactly when no Experience row of the run carries the returned id — 0 is
the sentinel for a skipped/failed log write, and real ids are always ≥ 1. -/
theorem C9_answer_xor_error_and_id_omission (env : Env) (renv : RecEnv)
    (q : String) (db0 : RLDB) (h1 : 1 ≤ db0.nextId) :
    ((handleQuery env q (initState db0)).1.answer = "" ∨
     (handleQuery env q (initState db0)).1.error = "") ∧
    (jsonOmitsInteractionID (handleQuery env q (initState db0)).1 = true ↔
      ¬ ∃ r ∈ (handleQuery env q (initState db0)).2.trace,
          r.id = (handleQuery env q (initState db0)).1.interactionID) ∧
    ((handleRecommend renv (initState db0)).1.answer = "" ∨
     (handleRecommend renv (initState db0)).1.error = "") ∧
    (jsonOmitsInteractionID (handleRecommend renv (initState db0)).1 = true ↔
      ¬ ∃ r ∈ (handleRecommend renv (initState db0)).2.trace,
          r.id = (handleRecommend renv (initState db0)).1.interactionID) := by
  obtain ⟨hxor, hid, hpos⟩ := handleQuery_parts env q db0
    (handleQuery env q (initState db0)).1 (handleQuery env q (initState db0)).2 h1 rfl
  obtain ⟨hxor2, hid2, hpos2⟩ := handleRecommend_parts renv db0
    (handleRecommend renv (initState db0)).1 (handleRecommend renv (initState db0)).2 h1 rfl
  refine ⟨hxor, ?_, hxor2, ?_⟩
  · rw [jsonOmitsInteractionID]
    simp only [beq_iff_eq]
    constructor
    · rintro h0 ⟨r, hr, hrid⟩
      have := hpos r hr
      omega
    · intro hno
      by_contra hne
      rcases hid with h0 | hex
      · exact hne h0
      · exact hno hex
  · rw [jsonOmitsInteractionID]
    simp only [beq_iff_eq]
    constructor
    · rintro h0 ⟨r, hr, hrid⟩
      have := hpos2 r hr
      omega
    · intro hno
      by_contra hne
      rcases hid2 with h0 | hex
      · exact hne h0
      · exact hno hex

/-- Witness for C9 at the all-success query scenario and an all-success
recommend environment. -/
theorem C9_answer_xor_error_and_id_omission_witness :
    ((handleQuery okEnv "q" (initState initDB)).1.answer = "" ∨
     (handleQuery okEnv "q" (initState initDB)).1.error = "") ∧
    (jsonOmitsInteractionID (handleQuery okEnv "q" (initState initDB)).1 = true ↔
      ¬ ∃ r ∈ (handleQuery okEnv "q" (initState initDB)).2.trace,
          r.id = (handleQuery okEnv "q" (initState initDB)).1.interactionID) := by
  have h := C9_answer_xor_error_and_id_omission okEnv
    { cpu := Except.ok "c", mem := Except.ok "m", topCPU := Except.ok "tc",
      topMem := Except.ok "tm", errLogs := Except.ok "el",
      recommend := fun _ => Except.ok "rec", logOk := fun _ => true }
    "q" initDB (by decide)
  exact ⟨h.1, h.2.1⟩

theorem execRoute_congr (env1 env2 : Env) (hql : env1.queryLogs = env2.queryLogs)
    (hqm : env1.queryMetrics = env2.queryMetrics) (attempt : Nat) (sq : String) :
    execRoute env1 attempt sq = execRoute env2 attempt sq := by
  simp only [execRoute, hql, hqm]

theorem runLoop_sameCtrl (env1 env2 : Env) (q : String)
    (hg : env1.gen = env2.gen) (hql : env1.queryLogs = env2.queryLogs)
    (hqm : env1.queryMetrics = env2.queryMetrics) :
    ∀ fuel attempt s1 s2,
      LoopRes.sameCtrl (runLoop env1 q attempt fuel s1).1 (runLoop env2 q attempt fuel s2).1 := by
  intro fuel
  induction fuel with
  | zero =>
    intro attempt s1 s2
    simp [runLoop, LoopRes.sameCtrl]
  | succ n ih =>
    intro attempt s1 s2
    simp only [runLoop]
    rcases hgen : env1.gen attempt with e | sq
    · have hgen2 : env2.gen attempt = Except.error e := by
        rw [← hg]
        exact hgen
      simp only [hgen, hgen2]
      by_cases hn : (n == 0) = true
      · simp only [hn, if_true]
        exact ⟨rfl, rfl⟩
      · simp only [hn, Bool.false_eq_true, if_false]
        exact ih (attempt + 1) s1 s2
    · have hgen2 : env2.gen attempt = Except.ok sq := by
        rw [← hg]
        exact hgen
      simp only [hgen, hgen2]
      have hexc := execRoute_congr env1 env2 hql hqm attempt sq
      rcases hxr : execRoute env1 attempt sq with e | r
      · have hxr2 : execRoute env2 attempt sq = Except.error e := by
          rw [← hexc]
          exact hxr
        simp only [hxr, hxr2]
        by_cases hn : (n == 0) = true
        · simp only [hn, if_true]
          exact ⟨rfl, rfl⟩
        · simp only [hn, Bool.false_eq_true, if_false]
          exact ih (attempt + 1) _ _
      · have hxr2 : execRoute env2 attempt sq = Except.ok r := by
          rw [← hexc]
          exact hxr
        simp only [hxr, hxr2]
        exact ⟨rfl, rfl⟩

theorem runLoop_logOff (env : Env) (q : String) (hoff : ∀ n, env.logOk n = false) :
    ∀ fuel attempt s,
      (runLoop env q attempt fuel s).2.trace = s.trace ∧
      (runLoop env q attempt fuel s).2.db = s.db ∧
      ∀ resp, (runLoop env q attempt fuel s).1 = LoopRes.fail resp → resp.interactionID = 0 := by
  intro fuel
  induction fuel with
  | zero =>
    intro attempt s
    refine ⟨rfl, rfl, ?_⟩
    intro resp h
    exact absurd h (by simp [runLoop])
  | succ n ih =>
    intro attempt s
    simp only [runLoop]
    rcases hgen : env.gen attempt with e | sq
    · simp only [hgen]
      by_cases hn : (n == 0) = true
      · simp only [hn, if_true]
        rw [hlog_false env.logOk s "query" q "" ("Failed to generate SQL: " ++ e) (hoff s.calls)]
        refine ⟨rfl, rfl, ?_⟩
        intro resp h
        rw [LoopRes.fail.injEq] at h
        rw [← h]
        rfl
      · simp only [hn, Bool.false_eq_true, if_false]
        exact ih (attempt + 1) s
    · simp only [hgen]
      rcases hxr : execRoute env attempt sq with e | r
      · simp only [hxr]
        rw [hlog_false env.logOk s "query" q sq ("Execution Error: " ++ e) (hoff s.calls)]
        by_cases hn : (n == 0) = true
        · simp only [hn, if_true]
          rw [hlog_false env.logOk { db := s.db, calls := s.calls + 1, trace := s.trace } "query" q sq ("Final Execution Error: " ++ e) (hoff (s.calls + 1))]
          refine ⟨rfl, rfl, ?_⟩
          intro resp h
          rw [LoopRes.fail.injEq] at h
          rw [← h]
          rfl
        · simp only [hn, Bool.false_eq_true, if_false]
          exact ih (attempt + 1) _
      · simp only [hxr]
        refine ⟨by trivial, by trivial, ?_⟩
        intro resp h
        exact absurd h (by simp)

theorem handleQuery_fail_eq (env : Env) (q : String) (s0 : HState)
    (resp : QueryResponse) (sl : HState)
    (h : runLoop env q 1 maxRetries s0 = (LoopRes.fail resp, sl)) :
    handleQuery env q s0 = (resp, sl) := by
  simp only [handleQuery, h]

theorem handleQuery_explain_err_eq (env : Env) (q : String) (s0 : HState)
    (sql res : String) (sl : HState) (e : String)
    (h : runLoop env q 1 maxRetries s0 = (LoopRes.ok sql res, sl))
    (hex : env.explain q sql res = Except.error e) :
    handleQuery env q s0 =
      (respondError ("Failed to explain results: " ++ e)
        (hlog env.logOk sl "query" q sql ("Failed to explain results: " ++ e)).1,
       (hlog env.logOk sl "query" q sql ("Failed to explain results: " ++ e)).2) := by
  simp only [handleQuery, h, hex]

theorem handleQuery_explain_ok_eq (env : Env) (q : String) (s0 : HState)
    (sql res : String) (sl : HState) (expl : String)
    (h : runLoop env q 1 maxRetries s0 = (LoopRes.ok sql res, sl))
    (hex : env.explain q sql res = Except.ok expl) :
    handleQuery env q s0 =
      ({ interactionID := (hlog env.logOk sl "query" q sql "Success").1,
         answer := expl, error := "" },
       (hlog env.logOk sl "query" q sql "Success").2) := by
  simp only [handleQuery, h, hex]

/-- C10: a failed `LogExperience` write is discarded at every call site of
the query handler: with every log write failing, the handler produces the
same `answer` and `error` it would produce with any other logging behavior
(the HTTP request itself never fails because of a log error), the response's
`interaction_id` is 0 — omitted from the JSON — and no row is written to the
store. -/
theorem C10_log_errors_discarded (env : Env) (q : String) (db0 : RLDB) :
    (handleQuery { env with logOk := fun _ => false } q (initState db0)).1.answer =
      (handleQuery env q (initState db0)).1.answer ∧
    (handleQuery { env with logOk := fun _ => false } q (initState db0)).1.error =
      (handleQuery env q (initState db0)).1.error ∧
    (handleQuery { env with logOk := fun _ => false } q (initState db0)).1.interactionID = 0 ∧
    jsonOmitsInteractionID (handleQuery { env with logOk := fun _ => false } q (initState db0)).1 = true ∧
    (handleQuery { env with logOk := fun _ => false } q (initState db0)).2.trace = (initState db0).trace ∧
    (handleQuery { env with logOk := fun _ => false } q (initState db0)).2.db = db0 := by
  set envF : Env := { env with logOk := fun _ => false } with henvF
  rcases hloopF : runLoop envF q 1 maxRetries (initState db0) with ⟨lrF, slF⟩
  rcases hloopT : runLoop env q 1 maxRetries (initState db0) with ⟨lrT, slT⟩
  have hctrl := runLoop_sameCtrl envF env q rfl rfl rfl maxRetries 1 (initState db0) (initState db0)
  rw [hloopF, hloopT] at hctrl
  have hoffs := runLoop_logOff envF q (fun _ => rfl) maxRetries 1 (initState db0)
  rw [hloopF] at hoffs
  obtain ⟨htr, hdb, hid0⟩ := hoffs
  simp only at htr hdb
  cases lrF with
  | fail rF =>
    cases lrT with
    | fail rT =>
      rw [handleQuery_fail_eq envF q (initState db0) rF slF hloopF]
      rw [handleQuery_fail_eq env q (initState db0) rT slT hloopT]
      obtain ⟨hans, herr⟩ := hctrl
      have hF0 : rF.interactionID = 0 := hid0 rF rfl
      refine ⟨hans, herr, hF0, ?_, htr, ?_⟩
      · rw [jsonOmitsInteractionID]
        simp [hF0]
      · rw [hdb]
        rfl
    | ok sqlT resT => exact absurd hctrl (by simp [LoopRes.sameCtrl])
  | ok sqlF resF =>
    cases lrT with
    | fail rT => exact absurd hctrl (by simp [LoopRes.sameCtrl])
    | ok sqlT resT =>
      obtain ⟨hsq, hres⟩ := hctrl
      subst hsq
      subst hres
      have hexFT : envF.explain = env.explain := rfl
      rcases hex : env.explain q sqlF resF with e | expl
      · rw [handleQuery_explain_err_eq envF q (initState db0) sqlF resF slF e hloopF (by rw [hexFT]; exact hex)]
        rw [handleQuery_explain_err_eq env q (initState db0) sqlF resF slT e hloopT hex]
        rw [hlog_false envF.logOk slF "query" q sqlF ("Failed to explain results: " ++ e) rfl]
        refine ⟨rfl, rfl, rfl, rfl, htr, ?_⟩
        rw [hdb]
        rfl
      · rw [handleQuery_explain_ok_eq envF q (initState db0) sqlF resF slF expl hloopF (by rw [hexFT]; exact hex)]
        rw [handleQuery_explain_ok_eq env q (initState db0) sqlF resF slT expl hloopT hex]
        rw [hlog_false envF.logOk slF "query" q sqlF "Success" rfl]
        refine ⟨rfl, rfl, rfl, rfl, htr, ?_⟩
        rw [hdb]
        rfl

end Zenith
